import Mathlib

/-!
Shallow embedding of `src/data_provider/yfinance_us_fetcher.py`
(class `YfinanceUSFetcher`).

Modelling conventions:
* pandas DataFrames are association lists of named columns over an
  explicit row index; cell values are rationals (numeric columns) or
  strings (the date index and the stamped `code` column).
* Rounding to 2 decimals models the pandas/numpy `.round(2)`;
  behaviour at exact half-cent ties is a binary floating-point artifact
  upstream and is modelled as round-half-up on rationals.
* The external provider (`yf.download`, `ticker.info`) is an oracle
  parameter: for bars, a map from the 1-based attempt number to the
  outcome of that call; for company info, the outcome of the single call.
* Python exceptions are an explicit error type threaded through
  `Except`; the `tenacity` retry decorator is embedded as an explicit
  bounded loop with its documented semantics (`stop_after_attempt(3)`,
  `wait_exponential(multiplier=1, min=2, max=30)`,
  `retry_if_exception_type((ConnectionError, TimeoutError))`).
-/

namespace YfUS

/-- A cell value: rational number or string. -/
inductive Val where
  | numV (q : ℚ)
  | strV (s : String)
  deriving DecidableEq, Repr

/-- One column of a frame: a homogeneous list of numbers or of strings. -/
inductive ColData where
  | nums (vals : List ℚ)
  | strs (vals : List String)
  deriving DecidableEq, Repr

/-- A pandas DataFrame: a row index (dates, as strings) and named columns. -/
structure DataFrame where
  idx : List String
  cols : List (String × ColData)
  deriving DecidableEq, Repr

/-- Column names, in frame order (`df.columns`). -/
def colNames (df : DataFrame) : List String :=
  df.cols.map Prod.fst

/-- Column lookup by name (first match, as for unique pandas labels). -/
def lookupCol (df : DataFrame) (n : String) : Option ColData :=
  df.cols.lookup n

/-- Python `n in df.columns`. -/
def hasCol (df : DataFrame) (n : String) : Bool :=
  (colNames df).contains n

/-- Python `df[n] = c`: replace the column in place if the name exists,
otherwise append it as the last column. -/
def setCol (df : DataFrame) (n : String) (c : ColData) : DataFrame :=
  ⟨df.idx,
    if hasCol df n then
      df.cols.map (fun p => if p.1 = n then (n, c) else p)
    else
      df.cols ++ [(n, c)]⟩

/-- Pandas `df.empty`: true when either axis has length 0. -/
def DataFrame.isEmpty (df : DataFrame) : Bool :=
  df.idx.isEmpty || df.cols.isEmpty

/-! ### Python string methods

Modelled over the character list of the string (adequate for the ASCII
symbols this module deals in). -/

/-- Python `str.strip()`: drop leading and trailing whitespace. -/
def pyStrip (s : String) : String :=
  ⟨((s.data.dropWhile Char.isWhitespace).reverse.dropWhile Char.isWhitespace).reverse⟩

/-- Python `str.upper()`: uppercase every character. -/
def pyUpper (s : String) : String :=
  ⟨s.data.map Char.toUpper⟩

/-- Python `s.startswith(t)`. -/
def pyStartsWith (s t : String) : Bool :=
  t.data.isPrefixOf s.data

/-- Python `str.isalpha()`: non-empty and all letters. -/
def pyIsAlpha (s : String) : Bool :=
  !s.data.isEmpty && s.data.all Char.isAlpha

/-- The numeric values of a column; `[]` when absent or non-numeric. -/
def getNums (df : DataFrame) (n : String) : List ℚ :=
  match lookupCol df n with
  | some (.nums v) => v
  | _ => []

/-- Round to 2 decimals (models pandas `.round(2)`, see header note). -/
def round2 (q : ℚ) : ℚ :=
  ((⌊q * 100 + 1 / 2⌋ : ℤ) : ℚ) / 100

/-- Pandas `Series.pct_change()`: first entry NaN (modelled `none`),
then `cur / prev - 1` for consecutive entries. -/
def pctChangeRaw : List ℚ → List (Option ℚ)
  | [] => []
  | c :: rest => none :: List.zipWith (fun prev cur => some (cur / prev - 1)) (c :: rest) rest

/-- Net effect of the two `pct_chg` assignments in `_normalize_data`:
`(s.pct_change() * 100).fillna(0).round(2)`. -/
def pctChgCol (closes : List ℚ) : List ℚ :=
  (pctChangeRaw closes).map (fun o => round2 ((o.map (· * 100)).getD 0))

/-- Rowwise `(df['volume'] * df['close']).round(2)`. -/
def amountCol (vols closes : List ℚ) : List ℚ :=
  (List.zipWith (· * ·) vols closes).map round2

/-- The `column_mapping` dict of `_normalize_data`. -/
def columnMapping : List (String × String) :=
  [("Date", "date"), ("Open", "open"), ("High", "high"),
   ("Low", "low"), ("Close", "close"), ("Volume", "volume")]

/-- Pandas `df.reset_index()`: the date index becomes the first column `Date`.
(The fresh positional index is observationally irrelevant here except for
its length, so the index list is kept to record the row count.) -/
def resetIndex (df : DataFrame) : DataFrame :=
  ⟨df.idx, ("Date", .strs df.idx) :: df.cols⟩

/-- Pandas `df.rename(columns=column_mapping)`. -/
def renameCols (df : DataFrame) : DataFrame :=
  ⟨df.idx, df.cols.map (fun p => ((columnMapping.lookup p.1).getD p.1, p.2))⟩

/-- The `pct_chg` step: only executed when a `close` column exists. -/
def addPct (df : DataFrame) : DataFrame :=
  if hasCol df "close" then
    setCol df "pct_chg" (.nums (pctChgCol (getNums df "close")))
  else df

/-- The `amount` step: `volume * close` rounded when both columns exist,
otherwise the scalar 0 broadcast over all rows. -/
def addAmount (df : DataFrame) : DataFrame :=
  if hasCol df "volume" && hasCol df "close" then
    setCol df "amount" (.nums (amountCol (getNums df "volume") (getNums df "close")))
  else
    setCol df "amount" (.nums (List.replicate df.idx.length 0))

/-- Python `df['code'] = stock_code.upper()`: broadcast over all rows. -/
def stampCode (df : DataFrame) (stock_code : String) : DataFrame :=
  setCol df "code" (.strs (List.replicate df.idx.length (pyUpper stock_code)))

/-- Modelled from the spec: `STANDARD_COLUMNS` is declared in
`data_provider/base.py`, which is not among the analyzed sources.  The
spec's StandardBar schema lists the fields
`code, date, open, high, low, close, volume, amount, pct_chg`, and
`_normalize_data` prepends `'code'` itself, so the shared list is the
remaining eight names in that order. -/
def STANDARD_COLUMNS : List String :=
  ["date", "open", "high", "low", "close", "volume", "amount", "pct_chg"]

/-- The list `keep_cols = ['code'] + STANDARD_COLUMNS`. -/
def keepCols : List String :=
  "code" :: STANDARD_COLUMNS

/-- The projection `existing_cols = [c for c in keep_cols if c in df.columns]; df[existing_cols]`:
project onto the kept columns, in `keep_cols` order. -/
def project (df : DataFrame) : DataFrame :=
  ⟨df.idx, keepCols.filterMap (fun c => (lookupCol df c).map (fun d => (c, d)))⟩

/-- Steps 1-5 of `_normalize_data` (everything before the projection). -/
def enrich (df : DataFrame) (stock_code : String) : DataFrame :=
  stampCode (addAmount (addPct (renameCols (resetIndex df)))) stock_code

/-- Method `_normalize_data`, as a pure function on the frame value. -/
def normalizeData (df : DataFrame) (stock_code : String) : DataFrame :=
  project (enrich df stock_code)

/-! ### Mutation model for `_normalize_data`

Python frames are heap objects; the local `df` of `_normalize_data`
starts as an alias of the caller's frame, `df = df.copy()` replaces the
alias with a fresh frame, rebinding statements (`df = df.reset_index()`,
`df = df.rename(...)`, `df = df[existing_cols]`) create fresh frames,
and subscript assignments (`df['pct_chg'] = ...` etc.) mutate whichever
frame the local currently refers to.  The model makes this aliasing
explicit so that the absence of caller-visible mutation is a theorem
about the code, not an artifact of purity. -/

/-- What the local variable `df` refers to: the caller's frame, or a
frame of its own. -/
inductive FrameRef where
  | toCaller
  | fresh (d : DataFrame)
  deriving DecidableEq, Repr

/-- Read the frame the local variable currently denotes. -/
def readRef (caller : DataFrame) : FrameRef → DataFrame
  | .toCaller => caller
  | .fresh d => d

/-- An in-place update (`df[col] = ...`): mutates the caller's frame when
the local still aliases it, otherwise only the owned frame. -/
def writeThrough (caller : DataFrame) (r : FrameRef) (f : DataFrame → DataFrame) :
    DataFrame × FrameRef :=
  match r with
  | .toCaller => (f caller, .toCaller)
  | .fresh d => (caller, .fresh (f d))

/-- Pandas `df.copy()`: a fresh frame with the same contents. -/
def copyFrame (d : DataFrame) : DataFrame := d

/-- Method `_normalize_data` with aliasing tracked: returns the caller's frame
after the call together with the returned frame. -/
def normalizeDataMut (caller : DataFrame) (stock_code : String) :
    DataFrame × DataFrame :=
  let r0 : FrameRef := .toCaller
  let r1 : FrameRef := .fresh (copyFrame (readRef caller r0))
  let r2 : FrameRef := .fresh (resetIndex (readRef caller r1))
  let r3 : FrameRef := .fresh (renameCols (readRef caller r2))
  let s4 := writeThrough caller r3 addPct
  let s5 := writeThrough s4.1 s4.2 addAmount
  let s6 := writeThrough s5.1 s5.2 (fun d => stampCode d stock_code)
  let r7 : FrameRef := .fresh (project (readRef s6.1 s6.2))
  (s6.1, readRef s6.1 r7)

/-! ### Exceptions, `_fetch_raw_data` and the tenacity retry wrapper -/

/-- The Python exceptions relevant to the fetch path.  `valueError`
stands for any non-transient provider exception (e.g. a
malformed-request error).  Modelled from the spec: `DataFetchError` is
declared in `data_provider/base.py` (not among the analyzed sources) as
the module's own fetch-error type — per the spec's error taxonomy it is
not a transport exception, so it gets distinct constructors: one for a
`DataFetchError` raised directly (the empty-frame message) and one for
`raise DataFetchError(...) from e`, carrying the cause.  `retryError` is
tenacity's terminal error after the attempt budget is exhausted. -/
inductive PyErr where
  | connectionError
  | timeoutError
  | valueError
  | dataFetchErrorPlain
  | dataFetchErrorFrom (cause : PyErr)
  | retryError (last : PyErr)
  deriving DecidableEq, Repr

/-- Tenacity `retry_if_exception_type((ConnectionError, TimeoutError))`. -/
def retryable : PyErr → Bool
  | .connectionError => true
  | .timeoutError => true
  | _ => false

/-- Is the exception a `DataFetchError`? -/
def isDFE : PyErr → Bool
  | .dataFetchErrorPlain => true
  | .dataFetchErrorFrom _ => true
  | _ => false

/-- The `except Exception` handler of `_fetch_raw_data`: re-raise a
`DataFetchError` as-is, wrap anything else (`raise DataFetchError(...)
from e`). -/
def handleExc (e : PyErr) : PyErr :=
  match e with
  | .dataFetchErrorPlain => .dataFetchErrorPlain
  | .dataFetchErrorFrom c => .dataFetchErrorFrom c
  | e => .dataFetchErrorFrom e

/-- One undecorated call of `_fetch_raw_data`'s body at a given attempt:
run the download, raise a `DataFetchError` on an empty frame, and pass
every escaping exception through the `except Exception` handler. -/
def attemptBody (download : ℕ → Except PyErr DataFrame) (k : ℕ) :
    Except PyErr DataFrame :=
  let tryBlock : Except PyErr DataFrame :=
    match download k with
    | .ok df => if df.isEmpty then .error .dataFetchErrorPlain else .ok df
    | .error e => .error e
  match tryBlock with
  | .ok df => .ok df
  | .error e => .error (handleExc e)

/-- Tenacity `wait_exponential(multiplier=1, min=2, max=30)`: the sleep after the
k-th failed attempt is `1 * 2 ^ (k - 1)` clamped into `[2, 30]`. -/
def waitExp (k : ℕ) : ℚ :=
  min 30 (max 2 ((2 : ℚ) ^ (k - 1)))

/-- Outcome of the decorated call: final result, number of attempts made,
and the sleeps performed between attempts. -/
structure RunResult where
  result : Except PyErr DataFrame
  attempts : ℕ
  sleeps : List ℚ
  deriving Repr

/-- The tenacity loop with `stop_after_attempt(3)`: after a failed
attempt, retry (sleeping first) only when the exception is retryable and
the attempt budget is not exhausted; a non-retryable exception is
re-raised at once; an exhausted budget raises `RetryError`. -/
def retryLoop (download : ℕ → Except PyErr DataFrame) :
    ℕ → ℕ → List ℚ → RunResult
  | k, fuel, sleeps =>
    match attemptBody download k with
    | .ok df => ⟨.ok df, k, sleeps⟩
    | .error e =>
      if retryable e then
        match fuel with
        | 0 => ⟨.error (.retryError e), k, sleeps⟩
        | fuel + 1 => retryLoop download (k + 1) fuel (sleeps ++ [waitExp k])
      else ⟨.error e, k, sleeps⟩

/-- Method `_fetch_raw_data` as decorated: attempts are numbered from 1 and at
most 3 are made. -/
def fetchRawData (download : ℕ → Except PyErr DataFrame) : RunResult :=
  retryLoop download 1 2 []

/-! ### `_validate_stock_code` -/

/-- Method `_validate_stock_code`: trim, uppercase, and return; a code that
neither starts with a caret nor is 1-5 letters only triggers a warning.
Returns the code together with whether the warning was logged. -/
def validateStockCode (stock_code : String) : String × Bool :=
  let code := pyUpper (pyStrip stock_code)
  if pyStartsWith code "^" || (1 ≤ code.length && code.length ≤ 5 && pyIsAlpha code) then
    (code, false)
  else
    (code, true)

/-! ### `get_stock_info` -/

/-- The provider's `ticker.info` mapping: per-key optional values. -/
def InfoDict : Type := String → Option Val

/-- The dict literal built by `get_stock_info`, key by key with each
field's own `info.get(...)` default. -/
def buildStockInfo (info : InfoDict) (stock_code : String) : List (String × Val) :=
  [("symbol", (info "symbol").getD (.strV stock_code)),
   ("name", (info "longName").getD ((info "shortName").getD (.strV "N/A"))),
   ("market_cap", (info "marketCap").getD (.numV 0)),
   ("pe_ratio", (info "trailingPE").getD (.numV 0)),
   ("forward_pe", (info "forwardPE").getD (.numV 0)),
   ("pb_ratio", (info "priceToBook").getD (.numV 0)),
   ("dividend_yield", (info "dividendYield").getD (.numV 0)),
   ("fifty_two_week_high", (info "fiftyTwoWeekHigh").getD (.numV 0)),
   ("fifty_two_week_low", (info "fiftyTwoWeekLow").getD (.numV 0)),
   ("sector", (info "sector").getD (.strV "N/A")),
   ("industry", (info "industry").getD (.strV "N/A"))]

/-- The `try` block of `get_stock_info`: the provider call may raise;
everything after it is pure. -/
def getStockInfoBody (oracle : Except PyErr InfoDict) (stock_code : String) :
    Except PyErr (List (String × Val)) := do
  let info ← oracle
  pure (buildStockInfo info stock_code)

/-- Method `get_stock_info`: the catch-all `except Exception` turns any raised
exception into a logged warning plus `None`.  Returns the optional
record together with whether the warning was logged. -/
def getStockInfo (oracle : Except PyErr InfoDict) (stock_code : String) :
    Option (List (String × Val)) × Bool :=
  match getStockInfoBody oracle stock_code with
  | .ok r => (some r, false)
  | .error _ => (none, true)

/-! ### Spec-side definitions (for refinement comparisons)

These follow the specification's wording, to be compared against the
definitions translated from the source. -/

/-- Spec wording: `pct_chg` is the percentage change of `close` versus
the previous row — `(cur - prev) / prev * 100` — rounded to 2 decimals,
with the first row defined as 0.0. -/
def pctChgSpec : List ℚ → List ℚ
  | [] => []
  | c :: rest =>
    0 :: List.zipWith (fun prev cur => round2 ((cur - prev) / prev * 100)) (c :: rest) rest

/-- The claim's index pattern: a caret followed by letters. -/
def claimIndexPat (s : String) : Bool :=
  pyStartsWith s "^" && pyIsAlpha ⟨s.data.drop 1⟩

/-- The claim's equity pattern: 1-5 letters.  (This coincides with the
equity half of the code's acceptance test.) -/
def claimEquityPat (s : String) : Bool :=
  1 ≤ s.length && s.length ≤ 5 && pyIsAlpha s

/-! ### Concrete inputs used by witnesses and counterexamples -/

/-- A non-empty one-row provider frame. -/
def dfOneRow : DataFrame := ⟨["2024-01-02"], [("Close", .nums [100])]⟩

/-- A provider whose download raises `ConnectionError` on attempts 1 and
2 and succeeds on attempt 3. -/
def downloadBug : ℕ → Except PyErr DataFrame :=
  fun k => if k ≤ 2 then .error .connectionError else .ok dfOneRow

/-- A provider that always succeeds with zero rows. -/
def downloadEmpty : ℕ → Except PyErr DataFrame :=
  fun _ => .ok ⟨[], []⟩

/-- A provider whose download always raises a non-transient
(malformed-request style) exception. -/
def downloadValueErr : ℕ → Except PyErr DataFrame :=
  fun _ => .error .valueError

/-- Three consecutive trading days with closes 100, 102, 101. -/
def dfThreeDays : DataFrame :=
  ⟨["2024-01-02", "2024-01-03", "2024-01-04"],
   [("Open", .nums [99, 101, 102]), ("Close", .nums [100, 102, 101])]⟩

/-- One row with volume 1000 and close 50.5. -/
def dfVolClose : DataFrame :=
  ⟨["2024-01-02"], [("Close", .nums [101 / 2]), ("Volume", .nums [1000])]⟩

/-- An upstream info response that omits every field. -/
def emptyInfo : InfoDict := fun _ => none

/-! ## Lemmas about the fetch path -/

/-- The `except Exception` handler never emits a retryable exception:
whatever it re-raises is a `DataFetchError`. -/
theorem retryable_handleExc (e : PyErr) : retryable (handleExc e) = false := by
  cases e <;> rfl

theorem isDFE_handleExc (e : PyErr) : isDFE (handleExc e) = true := by
  cases e <;> rfl

/-- Inversion for one undecorated call: it either returns a non-empty
frame or raises a non-retryable `DataFetchError`. -/
theorem attemptBody_cases (download : ℕ → Except PyErr DataFrame) (k : ℕ) :
    (∃ df, attemptBody download k = .ok df ∧ df.isEmpty = false) ∨
      (∃ e, attemptBody download k = .error e ∧ retryable e = false ∧ isDFE e = true) := by
  unfold attemptBody
  cases hd : download k with
  | ok df =>
    cases he : df.isEmpty with
    | false => exact Or.inl ⟨df, by simp [he], he⟩
    | true => exact Or.inr ⟨.dataFetchErrorPlain, by simp [he, handleExc], rfl, rfl⟩
  | error e =>
    exact Or.inr ⟨handleExc e, by simp, retryable_handleExc e, isDFE_handleExc e⟩

/-- Because every exception escaping the body has been wrapped into a
`DataFetchError`, the tenacity predicate never matches: the decorated
call is always exactly one attempt with no sleeps, returning the first
attempt's outcome. -/
theorem fetchRawData_eq_first_attempt (download : ℕ → Except PyErr DataFrame) :
    fetchRawData download = ⟨attemptBody download 1, 1, []⟩ := by
  unfold fetchRawData retryLoop
  rcases attemptBody_cases download 1 with ⟨df, hok, _⟩ | ⟨e, herr, hr, _⟩
  · rw [hok]
  · simp [herr, hr]

/-- C1.  The claim fails on the code: the inner `except Exception` of
`_fetch_raw_data` wraps `ConnectionError` and `TimeoutError` into
`DataFetchError` before the tenacity decorator can observe them, so with
a provider that raises `ConnectionError` on the first two attempts and
would succeed on the third, the call raises after a single attempt, with
no backoff sleeps; in general the decorated call never makes a second
attempt for any provider behaviour. -/
theorem fetchRawData_wraps_transient_and_never_retries :
    fetchRawData downloadBug =
      ⟨.error (.dataFetchErrorFrom .connectionError), 1, []⟩ ∧
    ∀ download, (fetchRawData download).attempts = 1 ∧
      (fetchRawData download).sleeps = [] := by
  constructor
  · rfl
  · intro download
    rw [fetchRawData_eq_first_attempt download]
    exact ⟨rfl, rfl⟩

/-- C2.  A provider success with zero rows raises `DataFetchError` at
once — one attempt, no sleeps — and a normal return always carries a
non-empty frame. -/
theorem fetchRawData_empty_raises (download : ℕ → Except PyErr DataFrame) :
    (∀ df, download 1 = .ok df → df.isEmpty = true →
      fetchRawData download = ⟨.error .dataFetchErrorPlain, 1, []⟩) ∧
    (∀ df, (fetchRawData download).result = .ok df → df.isEmpty = false) := by
  constructor
  · intro df hd he
    rw [fetchRawData_eq_first_attempt download]
    simp [attemptBody, hd, he, handleExc]
  · intro df hok
    rw [fetchRawData_eq_first_attempt download] at hok
    rcases attemptBody_cases download 1 with ⟨df2, hok2, hne⟩ | ⟨e, herr, _, _⟩
    · rw [hok2] at hok
      cases hok
      exact hne
    · rw [herr] at hok
      cases hok

/-- Witness for C2 at a provider returning an empty frame. -/
theorem fetchRawData_empty_raises_witness :
    fetchRawData downloadEmpty = ⟨.error .dataFetchErrorPlain, 1, []⟩ :=
  (fetchRawData_empty_raises downloadEmpty).1 ⟨[], []⟩ rfl rfl

/-- C3.  A non-transient provider exception is not retried: the call
fails on the first attempt with no sleeps, and what reaches the caller
is a `DataFetchError` — wrapping the original exception whenever the
original was not itself a `DataFetchError`. -/
theorem fetchRawData_nontransient_wrapped_no_retry
    (download : ℕ → Except PyErr DataFrame) (e : PyErr)
    (hd : download 1 = .error e)
    (hc : e ≠ .connectionError) (ht : e ≠ .timeoutError) :
    fetchRawData download = ⟨.error (handleExc e), 1, []⟩ ∧
    isDFE (handleExc e) = true ∧
    (isDFE e = false → handleExc e = .dataFetchErrorFrom e) := by
  refine ⟨?_, isDFE_handleExc e, ?_⟩
  · rw [fetchRawData_eq_first_attempt download]
    unfold attemptBody
    rw [hd]
  · intro hnot
    cases e <;> simp_all [isDFE, handleExc]

/-- Witness for C3 at a provider raising a malformed-request error. -/
theorem fetchRawData_nontransient_witness :
    fetchRawData downloadValueErr = ⟨.error (handleExc .valueError), 1, []⟩ ∧
    isDFE (handleExc .valueError) = true ∧
    (isDFE .valueError = false → handleExc .valueError = .dataFetchErrorFrom .valueError) :=
  fetchRawData_nontransient_wrapped_no_retry downloadValueErr .valueError rfl
    (by simp) (by simp)

/-! ## Lemmas about columns, `setCol` and the projection -/

theorem lookup_map_set_ne (l : List (String × ColData)) (n m : String) (c : ColData)
    (h : n ≠ m) :
    (l.map (fun p => if p.1 = m then (m, c) else p)).lookup n = l.lookup n := by
  induction l with
  | nil => rfl
  | cons p rest ih =>
    obtain ⟨k, v⟩ := p
    simp only [List.map_cons]
    by_cases hp : k = m
    · rw [show (if (k, v).1 = m then (m, c) else (k, v)) = (m, c) from if_pos hp]
      rw [List.lookup_cons, List.lookup_cons]
      have hn : (n == m) = false := by simp [h]
      have hk : (n == k) = false := by rw [hp]; exact hn
      rw [hn, hk, ih]
    · rw [show (if (k, v).1 = m then (m, c) else (k, v)) = (k, v) from if_neg hp]
      rw [List.lookup_cons, List.lookup_cons]
      cases hk : n == k
      · rw [ih]
      · rfl

theorem lookup_map_set_self (l : List (String × ColData)) (n : String) (c : ColData)
    (h : n ∈ l.map Prod.fst) :
    (l.map (fun p => if p.1 = n then (n, c) else p)).lookup n = some c := by
  induction l with
  | nil => simp at h
  | cons p rest ih =>
    obtain ⟨k, v⟩ := p
    simp only [List.map_cons]
    by_cases hp : k = n
    · rw [show (if (k, v).1 = n then (n, c) else (k, v)) = (n, c) from if_pos hp]
      rw [List.lookup_cons]
      simp
    · rw [show (if (k, v).1 = n then (n, c) else (k, v)) = (k, v) from if_neg hp]
      rw [List.lookup_cons]
      have hk : (n == k) = false := by
        simp only [beq_eq_false_iff_ne, ne_eq]
        exact fun hh => hp hh.symm
      rw [hk]
      apply ih
      rcases (by simpa using h : n = k ∨ ∃ x, (n, x) ∈ rest) with h1 | ⟨x, hx⟩
      · exact absurd h1.symm hp
      · exact List.mem_map.mpr ⟨(n, x), hx, rfl⟩

theorem lookup_append_ne (l : List (String × ColData)) (n m : String) (c : ColData)
    (h : n ≠ m) :
    (l ++ [(m, c)]).lookup n = l.lookup n := by
  induction l with
  | nil =>
    simp only [List.nil_append, List.lookup_cons]
    have hn : (n == m) = false := by simp [h]
    rw [hn]
  | cons p rest ih =>
    obtain ⟨k, v⟩ := p
    rw [List.cons_append, List.lookup_cons, List.lookup_cons]
    cases hk : n == k
    · rw [ih]
    · rfl

theorem lookup_none_of_not_mem (l : List (String × ColData)) (n : String)
    (h : n ∉ l.map Prod.fst) : l.lookup n = none := by
  induction l with
  | nil => rfl
  | cons p rest ih =>
    obtain ⟨k, v⟩ := p
    simp only [List.map_cons, List.mem_cons, not_or] at h
    rw [List.lookup_cons]
    have hk : (n == k) = false := by simp [h.1]
    rw [hk, ih h.2]

theorem lookup_append_self (l : List (String × ColData)) (n : String) (c : ColData)
    (h : n ∉ l.map Prod.fst) :
    (l ++ [(n, c)]).lookup n = some c := by
  induction l with
  | nil =>
    rw [List.nil_append, List.lookup_cons]
    simp
  | cons p rest ih =>
    obtain ⟨k, v⟩ := p
    simp only [List.map_cons, List.mem_cons, not_or] at h
    rw [List.cons_append, List.lookup_cons]
    have hk : (n == k) = false := by simp [h.1]
    rw [hk, ih h.2]

theorem hasCol_iff (df : DataFrame) (n : String) :
    hasCol df n = true ↔ n ∈ colNames df := by
  simp [hasCol]

theorem hasCol_eq_isSome (df : DataFrame) (n : String) :
    hasCol df n = (lookupCol df n).isSome := by
  unfold hasCol colNames lookupCol
  induction df.cols with
  | nil => rfl
  | cons p rest ih =>
    obtain ⟨k, v⟩ := p
    rw [List.map_cons, List.lookup_cons]
    cases hk : n == k
    · have hne : ¬n = k := by simpa using hk
      have : (k :: rest.map Prod.fst).contains n = (rest.map Prod.fst).contains n := by
        simp [List.contains, List.elem_cons, hk]
      rw [this, ih]
    · have heq : n = k := by simpa using hk
      have : (k :: rest.map Prod.fst).contains n = true := by
        simp [List.contains, List.elem_cons, hk]
      rw [this]
      rfl

theorem lookupCol_setCol_self (df : DataFrame) (n : String) (c : ColData) :
    lookupCol (setCol df n c) n = some c := by
  unfold setCol lookupCol
  by_cases h : hasCol df n
  · simp only [h, if_true]
    exact lookup_map_set_self _ _ _ ((hasCol_iff df n).mp h)
  · have hb : hasCol df n = false := by simpa using h
    have hm : n ∉ df.cols.map Prod.fst := by
      intro hmem
      exact h ((hasCol_iff df n).mpr hmem)
    simp only [hb, if_false, Bool.false_eq_true]
    exact lookup_append_self _ _ _ hm

theorem lookupCol_setCol_ne (df : DataFrame) (n m : String) (c : ColData)
    (h : n ≠ m) :
    lookupCol (setCol df m c) n = lookupCol df n := by
  unfold setCol lookupCol
  by_cases hm : hasCol df m
  · simp only [hm, if_true]
    exact lookup_map_set_ne _ _ _ _ h
  · have hb : hasCol df m = false := by simpa using hm
    simp only [hb, if_false, Bool.false_eq_true]
    exact lookup_append_ne _ _ _ _ h

theorem idx_setCol (df : DataFrame) (n : String) (c : ColData) :
    (setCol df n c).idx = df.idx := rfl

theorem idx_addPct (df : DataFrame) : (addPct df).idx = df.idx := by
  unfold addPct
  split <;> rfl

theorem idx_addAmount (df : DataFrame) : (addAmount df).idx = df.idx := by
  unfold addAmount
  split <;> rfl

theorem lookupCol_addPct_ne (df : DataFrame) (n : String) (h : n ≠ "pct_chg") :
    lookupCol (addPct df) n = lookupCol df n := by
  unfold addPct
  split
  · exact lookupCol_setCol_ne _ _ _ _ h
  · rfl

theorem lookupCol_addAmount_ne (df : DataFrame) (n : String) (h : n ≠ "amount") :
    lookupCol (addAmount df) n = lookupCol df n := by
  unfold addAmount
  split <;> exact lookupCol_setCol_ne _ _ _ _ h

theorem lookupCol_stampCode_ne (df : DataFrame) (code : String) (n : String)
    (h : n ≠ "code") :
    lookupCol (stampCode df code) n = lookupCol df n :=
  lookupCol_setCol_ne _ _ _ _ h

theorem lookup_filterMap_none (df : DataFrame) (n : String) (ks : List String)
    (h : lookupCol df n = none) :
    (ks.filterMap (fun c => (lookupCol df c).map (fun d => (c, d)))).lookup n = none := by
  induction ks with
  | nil => rfl
  | cons k rest ih =>
    cases hk : lookupCol df k with
    | none => simpa [hk] using ih
    | some d =>
      have hne : (n == k) = false := by
        by_cases he : n = k
        · subst he
          rw [h] at hk
          cases hk
        · simp [he]
      simpa [hk, List.lookup, hne] using ih

theorem lookup_filterMap_mem (df : DataFrame) (n : String) (ks : List String)
    (h : n ∈ ks) :
    (ks.filterMap (fun c => (lookupCol df c).map (fun d => (c, d)))).lookup n =
      lookupCol df n := by
  induction ks with
  | nil => simp at h
  | cons k rest ih =>
    by_cases he : n = k
    · subst he
      cases hk : lookupCol df n with
      | none => simpa [hk] using lookup_filterMap_none df n rest hk
      | some d => simp [hk, List.lookup]
    · have hr : n ∈ rest := by
        rcases List.mem_cons.mp h with h1 | h1
        · exact absurd h1 he
        · exact h1
      cases hk : lookupCol df k with
      | none => simpa [hk] using ih hr
      | some d =>
        have hne : (n == k) = false := by simp [he]
        simpa [hk, List.lookup, hne] using ih hr

theorem map_fst_filterMap (df : DataFrame) (ks : List String) :
    (ks.filterMap (fun c => (lookupCol df c).map (fun d => (c, d)))).map Prod.fst =
      ks.filter (fun c => (lookupCol df c).isSome) := by
  induction ks with
  | nil => rfl
  | cons k rest ih =>
    cases hk : lookupCol df k with
    | none => simpa [hk] using ih
    | some d => simpa [hk] using ih

theorem colNames_project (df : DataFrame) :
    colNames (project df) = keepCols.filter (fun c => hasCol df c) := by
  unfold project colNames
  rw [show (⟨df.idx, keepCols.filterMap
        (fun c => (lookupCol df c).map (fun d => (c, d)))⟩ : DataFrame).cols =
      keepCols.filterMap (fun c => (lookupCol df c).map (fun d => (c, d))) from rfl]
  rw [map_fst_filterMap df keepCols]
  exact (List.filter_congr (fun c _ => by rw [hasCol_eq_isSome])).symm

theorem lookupCol_project_mem (df : DataFrame) (n : String) (h : n ∈ keepCols) :
    lookupCol (project df) n = lookupCol df n :=
  lookup_filterMap_mem df n keepCols h

/-! ## `pct_chg`: code formula versus spec formula -/

theorem round2_zero : round2 0 = 0 := by
  norm_num [round2]

theorem zipWith_pct_congr :
    ∀ (l₁ l₂ : List ℚ), (∀ a ∈ l₁, a ≠ 0) →
      List.zipWith (fun prev cur => round2 ((cur / prev - 1) * 100)) l₁ l₂ =
        List.zipWith (fun prev cur => round2 ((cur - prev) / prev * 100)) l₁ l₂ := by
  intro l₁
  induction l₁ with
  | nil => intro l₂ _; rfl
  | cons a rest ih =>
    intro l₂ h
    cases l₂ with
    | nil => rfl
    | cons b l₂' =>
      have ha : a ≠ 0 := h a (List.mem_cons_self a rest)
      have harg : (b / a - 1) * 100 = (b - a) / a * 100 := by
        field_simp
      rw [List.zipWith_cons_cons, List.zipWith_cons_cons, harg,
        ih l₂' (fun x hx => h x (List.mem_cons_of_mem a hx))]

/-- The column `_normalize_data` computes coincides with the spec's
formula (percentage delta of `close` against the previous row, first row
0, rounded to 2 decimals) whenever no close price is zero. -/
theorem pctChgCol_eq_spec (closes : List ℚ) (h : ∀ c ∈ closes, c ≠ 0) :
    pctChgCol closes = pctChgSpec closes := by
  cases closes with
  | nil => rfl
  | cons c rest =>
    unfold pctChgCol pctChgSpec pctChangeRaw
    rw [List.map_cons]
    congr 1
    · simpa using round2_zero
    · rw [List.map_zipWith]
      simpa using zipWith_pct_congr (c :: rest) rest h

/-! ## Claim theorems about `_normalize_data` -/

/-- C4.  For a frame whose (renamed) `close` column holds the values
`closes`, none of them zero, the normalized frame's `pct_chg` column is
exactly the spec's column: first row 0, then the percentage change
against the previous row rounded to 2 decimals; and on closes
[100, 102, 101] the computed values are [0, 2, -0.98]. -/
theorem normalizeData_pct_chg :
    (∀ (df : DataFrame) (code : String) (closes : List ℚ),
        lookupCol (renameCols (resetIndex df)) "close" = some (.nums closes) →
        (∀ c ∈ closes, c ≠ 0) →
        lookupCol (normalizeData df code) "pct_chg" = some (.nums (pctChgSpec closes))) ∧
    pctChgCol [100, 102, 101] = [0, 2, -(98 : ℚ) / 100] := by
  constructor
  · intro df code closes hclose hnz
    set r := renameCols (resetIndex df) with hr
    have hhas : hasCol r "close" = true := by
      rw [hasCol_eq_isSome, hclose]
      rfl
    have hget : getNums r "close" = closes := by
      unfold getNums
      rw [hclose]
    have hpct : addPct r = setCol r "pct_chg" (.nums (pctChgCol closes)) := by
      unfold addPct
      rw [hhas, if_pos rfl, hget]
    have h1 : lookupCol (addPct r) "pct_chg" = some (.nums (pctChgCol closes)) := by
      rw [hpct]
      exact lookupCol_setCol_self _ _ _
    have h2 : lookupCol (addAmount (addPct r)) "pct_chg" =
        some (.nums (pctChgCol closes)) := by
      rw [lookupCol_addAmount_ne _ _ (by decide), h1]
    have h3 : lookupCol (stampCode (addAmount (addPct r)) code) "pct_chg" =
        some (.nums (pctChgCol closes)) := by
      rw [lookupCol_stampCode_ne _ _ _ (by decide), h2]
    have hmem : "pct_chg" ∈ keepCols := by decide
    unfold normalizeData enrich
    rw [lookupCol_project_mem _ _ hmem, ← hr, h3, pctChgCol_eq_spec closes hnz]
  · show pctChgCol [100, 102, 101] = [0, 2, -(98 : ℚ) / 100]
    unfold pctChgCol pctChangeRaw
    simp only [List.zipWith_cons_cons, List.zipWith_nil_right, List.map_cons,
      List.map_nil, Option.map_some, Option.map_none, Option.getD_some,
      Option.getD_none]
    norm_num [round2]

/-- Witness for C4 at three consecutive days with closes 100, 102, 101. -/
theorem normalizeData_pct_chg_witness :
    lookupCol (normalizeData dfThreeDays "aapl") "pct_chg" =
      some (.nums (pctChgSpec [100, 102, 101])) :=
  normalizeData_pct_chg.1 dfThreeDays "aapl" [100, 102, 101] rfl (by norm_num)

/-- C5.  When both `volume` and `close` exist after renaming, `amount`
is their rowwise product rounded to 2 decimals; when either is missing,
`amount` is the scalar 0 broadcast over all rows; volume 1000 at close
50.5 gives amount 50500. -/
theorem normalizeData_amount :
    (∀ (df : DataFrame) (code : String) (vols closes : List ℚ),
        lookupCol (renameCols (resetIndex df)) "volume" = some (.nums vols) →
        lookupCol (renameCols (resetIndex df)) "close" = some (.nums closes) →
        lookupCol (normalizeData df code) "amount" = some (.nums (amountCol vols closes))) ∧
    (∀ (df : DataFrame) (code : String),
        (hasCol (renameCols (resetIndex df)) "volume" &&
          hasCol (renameCols (resetIndex df)) "close") = false →
        lookupCol (normalizeData df code) "amount" =
          some (.nums (List.replicate df.idx.length 0))) ∧
    amountCol [1000] [101 / 2] = [50500] := by
  refine ⟨?_, ?_, ?_⟩
  · intro df code vols closes hvol hclose
    set r := renameCols (resetIndex df) with hr
    have hv1 : lookupCol (addPct r) "volume" = some (.nums vols) := by
      rw [lookupCol_addPct_ne _ _ (by decide), hvol]
    have hc1 : lookupCol (addPct r) "close" = some (.nums closes) := by
      rw [lookupCol_addPct_ne _ _ (by decide), hclose]
    have hguard : (hasCol (addPct r) "volume" && hasCol (addPct r) "close") = true := by
      rw [hasCol_eq_isSome, hasCol_eq_isSome, hv1, hc1]
      rfl
    have hamount : addAmount (addPct r) =
        setCol (addPct r) "amount" (.nums (amountCol vols closes)) := by
      unfold addAmount
      rw [hguard, if_pos rfl]
      unfold getNums
      rw [hv1, hc1]
    have h2 : lookupCol (addAmount (addPct r)) "amount" =
        some (.nums (amountCol vols closes)) := by
      rw [hamount]
      exact lookupCol_setCol_self _ _ _
    have h3 : lookupCol (stampCode (addAmount (addPct r)) code) "amount" =
        some (.nums (amountCol vols closes)) := by
      rw [lookupCol_stampCode_ne _ _ _ (by decide), h2]
    unfold normalizeData enrich
    rw [lookupCol_project_mem _ _ (by decide : "amount" ∈ keepCols), ← hr, h3]
  · intro df code hmiss
    set r := renameCols (resetIndex df) with hr
    have hv : hasCol (addPct r) "volume" = hasCol r "volume" := by
      rw [hasCol_eq_isSome, hasCol_eq_isSome, lookupCol_addPct_ne _ _ (by decide)]
    have hc : hasCol (addPct r) "close" = hasCol r "close" := by
      rw [hasCol_eq_isSome, hasCol_eq_isSome, lookupCol_addPct_ne _ _ (by decide)]
    have hguard : (hasCol (addPct r) "volume" && hasCol (addPct r) "close") = false := by
      rw [hv, hc, hmiss]
    have hidx : (addPct r).idx = df.idx := by
      rw [idx_addPct]
      rfl
    have hamount : addAmount (addPct r) =
        setCol (addPct r) "amount" (.nums (List.replicate df.idx.length 0)) := by
      unfold addAmount
      rw [hguard, hidx]
      simp
    have h2 : lookupCol (addAmount (addPct r)) "amount" =
        some (.nums (List.replicate df.idx.length 0)) := by
      rw [hamount]
      exact lookupCol_setCol_self _ _ _
    have h3 : lookupCol (stampCode (addAmount (addPct r)) code) "amount" =
        some (.nums (List.replicate df.idx.length 0)) := by
      rw [lookupCol_stampCode_ne _ _ _ (by decide), h2]
    unfold normalizeData enrich
    rw [lookupCol_project_mem _ _ (by decide : "amount" ∈ keepCols), ← hr, h3]
  · unfold amountCol
    simp only [List.zipWith_cons_cons, List.zipWith_nil_right, List.map_cons,
      List.map_nil]
    norm_num [round2]

/-- Witness for C5: amount from volume 1000, close 50.5; and the
broadcast-0 branch at a frame with no volume column. -/
theorem normalizeData_amount_witness :
    lookupCol (normalizeData dfVolClose "AAPL") "amount" =
      some (.nums (amountCol [1000] [101 / 2])) ∧
    lookupCol (normalizeData dfThreeDays "AAPL") "amount" =
      some (.nums (List.replicate 3 (0 : ℚ))) :=
  ⟨normalizeData_amount.1 dfVolClose "AAPL" [1000] [101 / 2] rfl rfl,
   normalizeData_amount.2.1 dfThreeDays "AAPL" rfl⟩

/-- C8.  The normalized frame's columns are exactly the members of
`['code'] ++ STANDARD_COLUMNS` present after renaming and enrichment, in
that declared order; no column outside that list survives; and the
`code` column is the original symbol uppercased, on every row. -/
theorem normalizeData_projection (df : DataFrame) (code : String) :
    colNames (normalizeData df code) =
      keepCols.filter (fun c => hasCol (enrich df code) c) ∧
    lookupCol (normalizeData df code) "code" =
      some (.strs (List.replicate df.idx.length (pyUpper code))) ∧
    ∀ n, n ∉ keepCols → hasCol (normalizeData df code) n = false := by
  refine ⟨colNames_project (enrich df code), ?_, ?_⟩
  · have hidx : (addAmount (addPct (renameCols (resetIndex df)))).idx = df.idx := by
      rw [idx_addAmount, idx_addPct]
      rfl
    have h1 : lookupCol (enrich df code) "code" =
        some (.strs (List.replicate df.idx.length (pyUpper code))) := by
      unfold enrich stampCode
      rw [hidx]
      exact lookupCol_setCol_self _ _ _
    unfold normalizeData
    rw [lookupCol_project_mem _ _ (by decide : "code" ∈ keepCols), h1]
  · intro n hn
    have := colNames_project (enrich df code)
    unfold normalizeData
    by_cases hb : hasCol (project (enrich df code)) n = true
    · exfalso
      have hmem : n ∈ colNames (project (enrich df code)) := (hasCol_iff _ _).mp hb
      rw [this] at hmem
      exact hn (List.mem_of_mem_filter hmem)
    · simpa using hb

/-- C10.  `_normalize_data` operates on a copy: the caller's frame is
unchanged by the call, and the returned frame is the pure
normalization result. -/
theorem normalizeDataMut_caller_unchanged (df : DataFrame) (code : String) :
    (normalizeDataMut df code).1 = df ∧
    (normalizeDataMut df code).2 = normalizeData df code :=
  ⟨rfl, rfl⟩

/-! ## Claim theorems about `get_stock_info` and `_validate_stock_code` -/

/-- C6.  Any exception raised while fetching company info — including an
unresolvable symbol — is swallowed: `get_stock_info` returns `None` and
logs a warning instead of propagating.  (That the call never raises is
expressed by its total `Option`-returning type: the catch-all handler
covers the whole body.) -/
theorem getStockInfo_swallows (oracle : Except PyErr InfoDict) (stock_code : String)
    (e : PyErr) (h : oracle = .error e) :
    getStockInfo oracle stock_code = (none, true) := by
  subst h
  rfl

/-- Witness for C6 at a provider raising on an unresolvable symbol. -/
theorem getStockInfo_swallows_witness :
    getStockInfo (.error .valueError) "NOSUCHTICKER" = (none, true) :=
  getStockInfo_swallows (.error .valueError) "NOSUCHTICKER" .valueError rfl

/-- C7 counterexample.  "^123" (already trimmed and uppercase) matches
neither of the claim's patterns — it is not a caret followed by letters,
nor 1-5 letters — yet `_validate_stock_code` accepts it silently (the
code's index test is only "starts with a caret"), so the claim's
"matching neither pattern is warned about" is false at this input. -/
theorem validateStockCode_claim_cex :
    claimIndexPat "^123" = false ∧ claimEquityPat "^123" = false ∧
    validateStockCode "^123" = ("^123", false) :=
  ⟨by decide, by decide, by decide⟩

/-- C7 amended.  `_validate_stock_code` always returns the trimmed,
uppercased input and never raises or rejects; the warning fires exactly
when the trimmed-uppercased code neither starts with a caret (the code's
index test checks only the caret) nor consists of 1-5 letters; and
"  aapl  " normalizes to "AAPL". -/
theorem validateStockCode_amended :
    (∀ s : String,
        (validateStockCode s).1 = pyUpper (pyStrip s) ∧
        ((validateStockCode s).2 = true ↔
          ¬(pyStartsWith (pyUpper (pyStrip s)) "^" = true ∨
            claimEquityPat (pyUpper (pyStrip s)) = true))) ∧
    validateStockCode "  aapl  " = ("AAPL", false) := by
  constructor
  · intro s
    constructor
    · simp only [validateStockCode]
      split <;> rfl
    · simp only [validateStockCode, claimEquityPat]
      split <;> rename_i hcond <;> simp_all
  · decide

/-- C9 counterexample.  With an upstream response that omits every
field, the `symbol` entry of the record is the requested stock code
("AAPL"), not the textual default "N/A" the claim prescribes. -/
theorem getStockInfo_default_cex :
    (getStockInfo (.ok emptyInfo) "AAPL").1 = some (buildStockInfo emptyInfo "AAPL") ∧
    (buildStockInfo emptyInfo "AAPL").lookup "symbol" = some (.strV "AAPL") ∧
    Val.strV "AAPL" ≠ Val.strV "N/A" :=
  ⟨rfl, rfl, by decide⟩

/-- C9 amended.  A successful `get_stock_info` call returns the record
with exactly the eleven declared fields in order, each independently
defaulted when the upstream response omits it: the seven numeric fields
to 0, `sector` and `industry` to "N/A", `name` to the upstream short
name when present and "N/A" otherwise, and `symbol` to the requested
stock code. -/
theorem getStockInfo_fields_amended (info : InfoDict) (stock_code : String) :
    getStockInfo (.ok info) stock_code =
      (some (buildStockInfo info stock_code), false) ∧
    (buildStockInfo info stock_code).map Prod.fst =
      ["symbol", "name", "market_cap", "pe_ratio", "forward_pe", "pb_ratio",
       "dividend_yield", "fifty_two_week_high", "fifty_two_week_low",
       "sector", "industry"] ∧
    (info "symbol" = none →
      (buildStockInfo info stock_code).lookup "symbol" = some (.strV stock_code)) ∧
    (info "longName" = none → info "shortName" = none →
      (buildStockInfo info stock_code).lookup "name" = some (.strV "N/A")) ∧
    (∀ v, info "longName" = none → info "shortName" = some v →
      (buildStockInfo info stock_code).lookup "name" = some v) ∧
    (info "marketCap" = none →
      (buildStockInfo info stock_code).lookup "market_cap" = some (.numV 0)) ∧
    (info "trailingPE" = none →
      (buildStockInfo info stock_code).lookup "pe_ratio" = some (.numV 0)) ∧
    (info "forwardPE" = none →
      (buildStockInfo info stock_code).lookup "forward_pe" = some (.numV 0)) ∧
    (info "priceToBook" = none →
      (buildStockInfo info stock_code).lookup "pb_ratio" = some (.numV 0)) ∧
    (info "dividendYield" = none →
      (buildStockInfo info stock_code).lookup "dividend_yield" = some (.numV 0)) ∧
    (info "fiftyTwoWeekHigh" = none →
      (buildStockInfo info stock_code).lookup "fifty_two_week_high" = some (.numV 0)) ∧
    (info "fiftyTwoWeekLow" = none →
      (buildStockInfo info stock_code).lookup "fifty_two_week_low" = some (.numV 0)) ∧
    (info "sector" = none →
      (buildStockInfo info stock_code).lookup "sector" = some (.strV "N/A")) ∧
    (info "industry" = none →
      (buildStockInfo info stock_code).lookup "industry" = some (.strV "N/A")) := by
  refine ⟨rfl, rfl, ?_, ?_, ?_, ?_, ?_, ?_, ?_, ?_, ?_, ?_, ?_, ?_⟩
  · intro h
    simp [buildStockInfo, List.lookup, h]
  · intro h1 h2
    simp [buildStockInfo, List.lookup, h1, h2]
  · intro v h1 h2
    simp [buildStockInfo, List.lookup, h1, h2]
  all_goals intro h
  all_goals simp [buildStockInfo, List.lookup, h]

/-- Witness for C9 at an upstream response omitting every field. -/
theorem getStockInfo_fields_amended_witness :
    (buildStockInfo emptyInfo "AAPL").lookup "symbol" = some (.strV "AAPL") ∧
    (buildStockInfo emptyInfo "AAPL").lookup "name" = some (.strV "N/A") ∧
    (buildStockInfo emptyInfo "AAPL").lookup "market_cap" = some (.numV 0) ∧
    (buildStockInfo emptyInfo "AAPL").lookup "sector" = some (.strV "N/A") := by
  have h := getStockInfo_fields_amended emptyInfo "AAPL"
  exact ⟨h.2.2.1 rfl, h.2.2.2.1 rfl rfl, h.2.2.2.2.2.1 rfl, h.2.2.2.2.2.2.2.2.2.2.2.2.1 rfl⟩

end YfUS
